import Mathlib

/-!
Verification development for the resumable judgments crawl engine
(`download.py`): task partitioning by court and date range, the session /
token retry machinery, the paginated search loop, per-row result
processing with descriptor-based dedup, the CAPTCHA solver retry policy,
and the durable per-court progress tracker.

Modelling conventions (shallow embedding):
* Calendar dates are day ordinals (`Nat`); `datetime.now()` becomes an
  explicit `today : Nat` parameter and `timedelta(days = k)` becomes `+ k`.
* Network I/O is replaced by explicit scripts (lists of responses consumed in
  order) or oracle functions; filesystem descriptor state is a function from
  path strings to optional metadata records.
* Exceptions of fallible code are `Except` / `Option` results.
-/

/-- `page_size = 5000` (`iDisplayLength` of every search request). -/
def page_size : Nat := 5000

/-- `NO_CAPTCHA_BATCH_SIZE = 25`: fresh-download threshold per session. -/
def NO_CAPTCHA_BATCH_SIZE : Nat := 25

/-- `MATH_CAPTCHA = False` (module-level flag in `download.py`). -/
def MATH_CAPTCHA : Bool := false

/-!
## Date-range partitioning (`get_new_date_range`, `get_date_ranges_to_process`,
`generate_tasks`)
-/

/-- `get_new_date_range(last_date, day_step)`: next chunk after `last_date`,
starting at `last_date + 1`, ending `day_step - 1` days later, clamped to
`today` (`datetime.now()` in the source); `none` when the start would lie in
the future. -/
def get_new_date_range (last_date : Nat) (day_step : Nat) (today : Nat) :
    Option (Nat × Nat) :=
  let new_from := last_date + 1
  let new_to := new_from + (day_step - 1)
  if new_from > today then none
  else some (new_from, if new_to > today then today else new_to)

/-- The explicit-bounds loop of `get_date_ranges_to_process`: partitions
`[start, end]` into chunks `(current, min (current + day_step - 1) end)`,
resuming each time at `range_end + 1`. -/
def date_chunks (start : Nat) (endd : Nat) (day_step : Nat) :
    List (Nat × Nat) :=
  if h : start ≤ endd then
    let range_end := min (start + (day_step - 1)) endd
    (start, range_end) :: date_chunks (range_end + 1) endd day_step
  else []
termination_by endd + 1 - start
decreasing_by
  simp only [gt_iff_lt]
  omega

/-- `get_date_ranges_to_process(court_code, start_date, end_date, day_step)`:
with an explicit `start_date` the span runs to `end_date` (or `today` when
absent); otherwise the court's tracking `last_date` is consulted and the span
runs from `last_date + 1` to `today`. -/
def get_date_ranges_to_process (tracking_last_date : Nat) (today : Nat)
    (start_date : Option Nat) (end_date : Option Nat) (day_step : Nat) :
    List (Nat × Nat) :=
  match start_date, end_date with
  | some s, some e => date_chunks s e day_step
  | some s, none => date_chunks s today day_step
  | none, _ => date_chunks (tracking_last_date + 1) today day_step

/-- `CourtDateTask` (uuid `id` field omitted: it carries no behaviour). -/
structure CourtDateTask where
  court_code : String
  from_date : Nat
  to_date : Nat
deriving DecidableEq, Repr

/-- `generate_tasks`: one `CourtDateTask` per court per date range. -/
def generate_tasks (court_codes : List String) (tracking_last_date : Nat)
    (today : Nat) (start_date : Option Nat) (end_date : Option Nat)
    (day_step : Nat) : List CourtDateTask :=
  court_codes.flatMap fun code =>
    (get_date_ranges_to_process tracking_last_date today start_date end_date
        day_step).map
      fun r => { court_code := code, from_date := r.1, to_date := r.2 }

/-- Days covered by one chunk `(a, b)`, as the list `[a, a+1, …, b]`. -/
def chunk_days (r : Nat × Nat) : List Nat := List.range' r.1 (r.2 + 1 - r.1)

theorem date_chunks_cover (endd day_step : Nat) :
    ∀ start, (date_chunks start endd day_step).flatMap chunk_days
      = List.range' start (endd + 1 - start) := by
  intro start
  by_cases h : start ≤ endd
  · rw [date_chunks]
    simp only [h, dif_pos, List.flatMap_cons]
    have hrec := date_chunks_cover endd day_step
      (min (start + (day_step - 1)) endd + 1)
    rw [hrec, chunk_days]
    have h1 : start ≤ min (start + (day_step - 1)) endd + 1 := by omega
    have := List.range'_append_1 start
      (min (start + (day_step - 1)) endd + 1 - start)
      (endd + 1 - (min (start + (day_step - 1)) endd + 1))
    rw [Nat.add_sub_cancel' h1] at this
    rw [this]
    congr 1
    omega
  · rw [date_chunks]
    simp only [h, dif_neg, not_false_iff, List.flatMap_nil]
    have : endd + 1 - start = 0 := by omega
    rw [this, List.range'_zero]
termination_by start => endd + 1 - start
decreasing_by omega

theorem date_chunks_shape (endd day_step : Nat) (hstep : 1 ≤ day_step) :
    ∀ start, ∀ r ∈ date_chunks start endd day_step,
      r.1 ≤ r.2 ∧ r.2 + 1 - r.1 ≤ day_step ∧
        (r.2 = endd ∨ r.2 + 1 - r.1 = day_step) := by
  intro start r hr
  by_cases h : start ≤ endd
  · rw [date_chunks] at hr
    simp only [h, dif_pos, List.mem_cons] at hr
    rcases hr with hr | hr
    · subst hr
      refine ⟨by omega, by omega, ?_⟩
      rcases Nat.le_total (start + (day_step - 1)) endd with hle | hle
      · right; rw [min_eq_left hle]; omega
      · left; rw [min_eq_right hle]
    · exact date_chunks_shape endd day_step hstep _ r hr
  · rw [date_chunks] at hr
    simp only [h, dif_neg, not_false_iff, List.not_mem_nil] at hr
termination_by start => endd + 1 - start
decreasing_by omega

/-- C8: for explicit bounds `start ≤ end` and `day_step ≥ 1`, the chunks
produced by `get_date_ranges_to_process` concatenate to exactly the days
`[start, …, end]` (no gaps, no overlaps), each chunk spans at most `day_step`
days and exactly `day_step` days unless it is truncated at `end`; and the
`CourtDateTask`s from `generate_tasks` carry exactly these ranges. -/
theorem C8_partition_coverage (s e step : Nat) (_hse : s ≤ e)
    (hstep : 1 ≤ step) :
    (get_date_ranges_to_process 0 0 (some s) (some e) step).flatMap chunk_days
        = List.range' s (e + 1 - s)
    ∧ (∀ r ∈ get_date_ranges_to_process 0 0 (some s) (some e) step,
        r.1 ≤ r.2 ∧ r.2 + 1 - r.1 ≤ step ∧ (r.2 = e ∨ r.2 + 1 - r.1 = step))
    ∧ (∀ code tl td,
        (generate_tasks [code] tl td (some s) (some e) step).map
            (fun t => (t.from_date, t.to_date))
          = get_date_ranges_to_process tl td (some s) (some e) step) := by
  refine ⟨date_chunks_cover e step s, date_chunks_shape e step hstep s, ?_⟩
  intro code tl td
  simp [generate_tasks, get_date_ranges_to_process, List.map_map,
    Function.comp_def]

/-- Witness for C8 at `s = 2`, `e = 7`, `step = 3`. -/
theorem C8_partition_coverage_witness :
    (2 ≤ 7 ∧ 1 ≤ 3)
    ∧ ((get_date_ranges_to_process 0 0 (some 2) (some 7) 3).flatMap chunk_days
          = List.range' 2 (7 + 1 - 2)
      ∧ (∀ r ∈ get_date_ranges_to_process 0 0 (some 2) (some 7) 3,
          r.1 ≤ r.2 ∧ r.2 + 1 - r.1 ≤ 3 ∧ (r.2 = 7 ∨ r.2 + 1 - r.1 = 3))
      ∧ (∀ code tl td,
          (generate_tasks [code] tl td (some 2) (some 7) 3).map
              (fun t => (t.from_date, t.to_date))
            = get_date_ranges_to_process tl td (some 2) (some 7) 3)) :=
  ⟨⟨by omega, by omega⟩, C8_partition_coverage 2 7 3 (by omega) (by omega)⟩

/-!
## Python string primitives

The built-in `String.splitOn` / `String.trim` / `String.replace` are not
kernel-reducible (they recurse on byte positions), so the Python string
operations used by the crawler are re-implemented structurally over character
lists with the same semantics, so that concrete runs of the model evaluate by
`decide` / `rfl`.
-/

/-- Splitter for `str.split(sep)` / `str.splitOn`: leftmost non-overlapping
occurrences of the (non-empty) separator.  `fuel` only bounds recursion depth;
it is set to the length of the subject, which one character or one separator
consumed per step never exhausts. -/
def py_split_go (sep : List Char) : Nat → List Char → List Char →
    List (List Char)
  | _, [], acc => [acc.reverse]
  | 0, s, acc => [acc.reverse ++ s]
  | fuel + 1, c :: rest, acc =>
    if sep.isPrefixOf (c :: rest) then
      acc.reverse :: py_split_go sep fuel ((c :: rest).drop sep.length) []
    else py_split_go sep fuel rest (c :: acc)

/-- `s.split(sep)` for a non-empty separator. -/
def py_split (s sep : String) : List String :=
  (py_split_go sep.toList s.toList.length s.toList []).map String.mk

/-- `s.strip()`. -/
def py_strip (s : String) : String :=
  String.mk (((s.toList.dropWhile Char.isWhitespace).reverse.dropWhile
    Char.isWhitespace).reverse)

/-- `s.replace(old, new)` for a non-empty `old`. -/
def py_replace (s old new : String) : String :=
  String.intercalate new (py_split s old)

/-- `c in s` for a single character. -/
def py_contains (s : String) (c : Char) : Bool := s.toList.contains c

/-!
## CAPTCHA solver (`is_math_expression`, `solve_math_expression`,
`solve_captcha`)
-/

/-- `is_math_expression`: any of the recognised separators occurs. -/
def is_math_expression (expression : String) : Bool :=
  py_contains expression '+' || py_contains expression '-' ||
  py_contains expression '*' || py_contains expression '/' ||
  py_contains expression '÷' || py_contains expression 'x' ||
  py_contains expression '×' || py_contains expression 'X'

/-- `solve_math_expression`: strips spaces and dots, then evaluates the
first recognised operator; `none` models every raised exception
(unsupported expression, `int()` parse failure, missing operand,
division by zero).  Python `//` is floor division, hence `Int.fdiv`. -/
def solve_math_expression (expression : String) : Option String :=
  let e := py_replace (py_replace (py_strip expression) " " "") "." ""
  if py_contains e '+' then do
    let nums := py_split e "+"
    let a ← (nums.getD 0 "").toInt?
    let b ← (nums.getD 1 "").toInt?
    pure (toString (a + b))
  else if py_contains e '-' then do
    let nums := py_split e "-"
    let a ← (nums.getD 0 "").toInt?
    let b ← (nums.getD 1 "").toInt?
    pure (toString (a - b))
  else if py_contains e '*' || py_contains e 'X' || py_contains e 'x' ||
      py_contains e '×' then do
    let e2 := py_replace (py_replace (py_replace e "x" "*") "×" "*") "X" "*"
    let nums := py_split e2 "*"
    let a ← (nums.getD 0 "").toInt?
    let b ← (nums.getD 1 "").toInt?
    pure (toString (a * b))
  else if py_contains e '/' || py_contains e '÷' then do
    let e2 := py_replace e "÷" "/"
    let nums := py_split e2 "/"
    let a ← (nums.getD 0 "").toInt?
    let b ← (nums.getD 1 "").toInt?
    if b = 0 then none else pure (toString (Int.fdiv a b))
  else none

/-- Terminal outcome of `solve_captcha`. -/
inductive CaptchaOutcome where
  /-- A usable answer was returned. -/
  | solved (answer : String)
  /-- `raise ValueError("Failed to solve captcha")` — the `retries > 10`
  guard at the top of `solve_captcha`. -/
  | failedToSolve
  /-- `raise Exception("Captcha not solved")` — the guard inside the
  non-arithmetic branch. -/
  | captchaNotSolved
deriving DecidableEq, Repr

/-- `"".join([c for c in captch_text if c.isalnum()])`. -/
def captcha_alnum (s : String) : String :=
  String.mk (s.toList.filter Char.isAlphanum)

/-- One `solve_captcha` activation, parametrised by the OCR collaborator
`ocr : Nat → List String` giving the recognised texts of the attempt made at
recursion depth `retries` (`reader.readtext` returns a list of
`(box, text, confidence)` hits; only `result[0][1]` is consumed, and an empty
list is the "no result" case).  The CAPTCHA image download is network I/O with
no bearing on control flow and is not modelled.  `fuel` is an upper bound on
the recursion depth, structurally decreasing so that the kernel can evaluate
the definition; every activation raises via the `retries > 10` guard before
`fuel` can reach `0` when started with `fuel ≥ 12 - retries`.  The second
component counts the OCR recognition attempts performed. -/
def solve_captcha_fuel (ocr : Nat → List String) :
    Nat → Nat → CaptchaOutcome × Nat
  | 0, _ => (.failedToSolve, 0)
  | fuel + 1, retries =>
    if retries > 10 then (.failedToSolve, 0)
    else
      match (ocr retries).head? with
      | none =>
        -- `if not result:` — empty OCR output, retry
        let r := solve_captcha_fuel ocr fuel (retries + 1)
        (r.1, r.2 + 1)
      | some raw =>
        let captch_text := py_strip raw
        if MATH_CAPTCHA then
          if is_math_expression captch_text then
            match solve_math_expression captch_text with
            | some answer => (.solved answer, 1)
            | none =>
              let r := solve_captcha_fuel ocr fuel (retries + 1)
              (r.1, r.2 + 1)
          else
            let r := solve_captcha_fuel ocr fuel (retries + 1)
            (r.1, r.2 + 1)
        else
          let captcha_text := captcha_alnum captch_text
          if captcha_text.length ≠ 6 then
            if retries > 10 then (.captchaNotSolved, 1)
            else
              let r := solve_captcha_fuel ocr fuel (retries + 1)
              (r.1, r.2 + 1)
          else (.solved captcha_text, 1)

/-- `solve_captcha(retries)`: fuel `12` suffices for every start value of
`retries` since the `retries > 10` guard fires at depth at most
`12 - retries`. -/
def solve_captcha (ocr : Nat → List String) (retries : Nat) :
    CaptchaOutcome × Nat :=
  solve_captcha_fuel ocr 12 retries

/-- An OCR reading that `solve_captcha` (non-arithmetic mode) cannot use:
either no result at all, or text that does not normalise to exactly six
alphanumeric characters. -/
def ocr_unusable (texts : List String) : Bool :=
  match texts.head? with
  | none => true
  | some raw => (captcha_alnum (py_strip raw)).length ≠ 6

theorem solve_captcha_fuel_unusable (ocr : Nat → List String) :
    ∀ d r, r + d = 11 → (∀ k, r ≤ k → k ≤ 10 → ocr_unusable (ocr k)) →
      solve_captcha_fuel ocr (d + 1) r = (.failedToSolve, d) := by
  intro d
  induction d with
  | zero =>
    intro r hr _
    have : r > 10 := by omega
    simp [solve_captcha_fuel, this]
  | succ n ih =>
    intro r hr hun
    have hr10 : ¬ r > 10 := by omega
    have hu := hun r (Nat.le_refl r) (by omega)
    rw [solve_captcha_fuel]
    simp only [hr10, if_false]
    have hrec : solve_captcha_fuel ocr (n + 1) (r + 1) = (.failedToSolve, n) :=
      ih (r + 1) (by omega) (fun k hk1 hk2 => hun k (by omega) hk2)
    unfold ocr_unusable at hu
    match hocr : (ocr r).head? with
    | none => simp [hocr, hrec]
    | some raw =>
      rw [hocr] at hu
      simp only [decide_eq_true_eq] at hu
      simp [hocr, MATH_CAPTCHA, hu, hrec]

/-- Amended C6: when every OCR reading through retry 10 is unusable,
`solve_captcha` terminates with the fatal `ValueError("Failed to solve
captcha")` raised by the `retries > 10` guard, after the initial attempt plus
exactly ten retries (eleven recognition attempts) — not before and not after;
the `Exception("Captcha not solved")` raise inside the non-arithmetic branch
is never reached, because the top-of-function guard fires first. -/
theorem C6_retry_ceiling (ocr : Nat → List String)
    (h : ∀ k < 11, ocr_unusable (ocr k)) :
    solve_captcha ocr 0 = (.failedToSolve, 11)
    ∧ CaptchaOutcome.failedToSolve ≠ CaptchaOutcome.captchaNotSolved := by
  refine ⟨?_, by simp⟩
  have := solve_captcha_fuel_unusable ocr 11 0 (by omega)
    (fun k _ hk => h k (by omega))
  simpa [solve_captcha] using this

/-- Witness for C6 with an OCR stub that always reads two characters. -/
theorem C6_retry_ceiling_witness :
    (∀ k < 11, ocr_unusable ((fun _ => ["zq"]) k))
    ∧ (solve_captcha (fun _ => ["zq"]) 0 = (.failedToSolve, 11)
      ∧ CaptchaOutcome.failedToSolve ≠ CaptchaOutcome.captchaNotSolved) :=
  ⟨by decide, C6_retry_ceiling (fun _ => ["zq"]) (by decide)⟩

/-- Counterexample to C6 as stated: with an OCR stub that always returns no
result, the condition raised after the retry ceiling is the `retries > 10`
guard's `ValueError("Failed to solve captcha")`, not the claimed
`Exception("Captcha not solved")` (whose raise site is unreachable). -/
theorem C6_retry_ceiling_cex :
    solve_captcha (fun _ => []) 0 = (.failedToSolve, 11)
    ∧ (solve_captcha (fun _ => []) 0).1 ≠ CaptchaOutcome.captchaNotSolved := by
  decide

/-!
## Result Processor (`extract_pdf_fragment`, `get_pdf_output_path`,
`is_pdf_downloaded`, `process_result_row`)
-/

/-- Text after the first occurrence of `pat` in `s`, `none` when `pat` does
not occur. -/
def after_first (s pat : String) : Option String :=
  match py_split s pat with
  | [] => none
  | [_] => none
  | _ :: rest => some (String.intercalate pat rest)

/-- `extract_pdf_fragment`: the regex
`javascript:open_pdf\('.*?','.*?','(.*?)'\)` applied by `re.search`, then
`group(1).split("#")[0]`; `None` when the attribute does not match.  The lazy
quantifiers are modelled as first-occurrence searches (the regex engine would
additionally backtrack to later delimiter occurrences when the first cannot
complete a match; no such attribute shape occurs in the portal markup and no
theorem below depends on one). -/
def extract_pdf_fragment (html_attribute : String) : Option String :=
  match after_first html_attribute "javascript:open_pdf('" with
  | none => none
  | some r1 =>
    match after_first r1 "','" with
    | none => none
    | some r2 =>
      match after_first r2 "','" with
      | none => none
      | some r3 =>
        match py_split r3 "')" with
        | g :: _ :: _ => some ((py_split g "#").headD "")
        | _ => none

/-- `get_pdf_output_path`: `output_dir / pdf_fragment.split("#")[0]` with
`output_dir = Path("./data")`. -/
def get_pdf_output_path (pdf_fragment : String) : String :=
  "data/" ++ (py_split pdf_fragment "#").headD ""

/-- `Path.with_suffix(".json")`: replace the final suffix of the last path
component (a suffix exists when the name contains a dot not in first
position), else append `.json`. -/
def path_with_suffix_json (p : String) : String :=
  let comps := py_split p "/"
  let name := comps.getLastD ""
  let parts := py_split name "."
  let newName :=
    if parts.length ≥ 2 && (parts.headD "") ≠ "" then
      String.intercalate "." parts.dropLast ++ ".json"
    else name ++ ".json"
  String.intercalate "/" (comps.dropLast ++ [newName])

/-- The sidecar descriptor written next to each judgment document
(`metadata` dict in `process_result_row`). -/
structure Metadata where
  court_code : String
  court_name : String
  raw_html : String
  pdf_link : String
  downloaded : Bool
deriving DecidableEq, Repr

/-- Descriptor store: the part of the filesystem the Result Processor reads
and writes, as a map from path strings to descriptors.  (The binary document
files written by `download_pdf` play no role in any claim: dedup consults only
the descriptor.) -/
structure FileSystem where
  meta : String → Option Metadata

/-- `is_pdf_downloaded`: the descriptor exists and its `downloaded` field is
true.  (A descriptor written by this engine always carries the field.) -/
def is_pdf_downloaded (fs : FileSystem) (pdf_fragment : String) : Bool :=
  match fs.meta (path_with_suffix_json (get_pdf_output_path pdf_fragment)) with
  | some m => m.downloaded
  | none => false

/-- One listing row (`row = [id, html]`; only `row[1]` is consumed).  The
BeautifulSoup lookup `soup.button` / `"onclick" in soup.button.attrs` is
abstracted into `button_onclick`: the onclick attribute of the first button
when one is present. -/
structure ResultRow where
  html : String
  button_onclick : Option String

/-- The exception raised inside `process_result_row`. -/
inductive RowError where
  /-- `AttributeError`: `extract_pdf_fragment` returned `None` and
  `get_pdf_output_path` evaluates `None.split("#")`. -/
  | attributeError
deriving DecidableEq, Repr

/-- Result of one `process_result_row` call: the returned Boolean
(`is_fresh_download`), whether the Document Fetcher `download_pdf` was
invoked, and the updated descriptor store. -/
structure ProcessedRow where
  fresh : Bool
  fetcher_invoked : Bool
  fs : FileSystem

/-- `Downloader.process_result_row`.  `download_pdf` performs network I/O
(link resolution, byte-count sentinel checks); its outcome for a given
fragment and row position is supplied by the oracle `dl`.  The
`html-parse-failures.txt` log append has no further behaviour and is not
modelled. -/
def process_result_row (court_code court_name : String)
    (dl : String → Nat → Bool) (fs : FileSystem) (row : ResultRow)
    (row_pos : Nat) : Except RowError ProcessedRow :=
  match row.button_onclick with
  | none => .ok ⟨false, false, fs⟩
  | some onclick =>
    match extract_pdf_fragment onclick with
    | none => .error .attributeError
    | some pdf_fragment =>
      let pdf_output_path := get_pdf_output_path pdf_fragment
      let is_pdf_present := is_pdf_downloaded fs pdf_fragment
      let pdf_needs_download := ! is_pdf_present
      let is_fresh_download :=
        if pdf_needs_download then dl pdf_fragment row_pos else false
      let metadata_output := path_with_suffix_json pdf_output_path
      let metadata : Metadata :=
        ⟨court_code, court_name, row.html, pdf_fragment,
          is_pdf_present || is_fresh_download⟩
      .ok ⟨is_fresh_download, pdf_needs_download,
        ⟨fun p => if p = metadata_output then some metadata else fs.meta p⟩⟩

/-- C2: on a row whose sidecar descriptor exists with `downloaded = true`,
`process_result_row` does not invoke the Document Fetcher and rewrites the
descriptor with `downloaded = true`. -/
theorem C2_idempotent_dedup (court_code court_name : String)
    (dl : String → Nat → Bool) (fs : FileSystem) (row : ResultRow)
    (onclick frag : String) (pos : Nat) (m : Metadata)
    (h1 : row.button_onclick = some onclick)
    (h2 : extract_pdf_fragment onclick = some frag)
    (h3 : fs.meta (path_with_suffix_json (get_pdf_output_path frag)) = some m)
    (h4 : m.downloaded = true) :
    ∃ fs2, process_result_row court_code court_name dl fs row pos
        = .ok ⟨false, false, fs2⟩
      ∧ (fs2.meta (path_with_suffix_json (get_pdf_output_path frag))).map
          Metadata.downloaded = some true := by
  have hp : is_pdf_downloaded fs frag = true := by
    simp [is_pdf_downloaded, h3, h4]
  refine ⟨FileSystem.mk (fun p =>
      if p = path_with_suffix_json (get_pdf_output_path frag) then
        some ⟨court_code, court_name, row.html, frag, true⟩
      else fs.meta p), ?_, ?_⟩
  · simp [process_result_row, h1, h2, hp]
  · simp

/-- Witness for C2 on a concrete row and descriptor store. -/
theorem C2_idempotent_dedup_witness :
    ((ResultRow.mk "<button onclick=x>row</button>"
          (some "javascript:open_pdf('1','2','a/b.pdf#p')")).button_onclick
        = some "javascript:open_pdf('1','2','a/b.pdf#p')"
      ∧ extract_pdf_fragment "javascript:open_pdf('1','2','a/b.pdf#p')"
        = some "a/b.pdf"
      ∧ (FileSystem.mk fun p => if p = "data/a/b.json" then
            some (Metadata.mk "27~1" "Telangana" "old" "a/b.pdf" true)
          else none).meta
          (path_with_suffix_json (get_pdf_output_path "a/b.pdf"))
        = some (Metadata.mk "27~1" "Telangana" "old" "a/b.pdf" true)
      ∧ (Metadata.mk "27~1" "Telangana" "old" "a/b.pdf" true).downloaded
        = true)
    ∧ ∃ fs2, process_result_row "27~1" "Telangana" (fun _ _ => true)
          (FileSystem.mk fun p => if p = "data/a/b.json" then
            some (Metadata.mk "27~1" "Telangana" "old" "a/b.pdf" true)
          else none)
          (ResultRow.mk "<button onclick=x>row</button>"
            (some "javascript:open_pdf('1','2','a/b.pdf#p')")) 0
        = .ok ⟨false, false, fs2⟩
      ∧ (fs2.meta (path_with_suffix_json (get_pdf_output_path "a/b.pdf"))).map
          Metadata.downloaded = some true :=
  ⟨⟨rfl, by decide, by decide, rfl⟩,
    C2_idempotent_dedup "27~1" "Telangana" (fun _ _ => true)
      (FileSystem.mk fun p => if p = "data/a/b.json" then
        some (Metadata.mk "27~1" "Telangana" "old" "a/b.pdf" true)
      else none)
      (ResultRow.mk "<button onclick=x>row</button>"
        (some "javascript:open_pdf('1','2','a/b.pdf#p')"))
      "javascript:open_pdf('1','2','a/b.pdf#p')" "a/b.pdf" 0
      (Metadata.mk "27~1" "Telangana" "old" "a/b.pdf" true)
      rfl (by decide) (by decide) rfl⟩

/-- C9 (divergence): a row with no button/onclick is returned as "not
downloaded" without raising, but a row whose onclick attribute does not match
the `open_pdf` pattern makes `process_result_row` raise: `extract_pdf_fragment`
returns `None` and the unguarded `get_pdf_output_path` call evaluates
`None.split("#")`, an `AttributeError` (caught only by the caller's per-row
handler). -/
theorem C9_unsupported_row_raises :
    process_result_row "27~1" "Telangana High Court" (fun _ _ => true)
        (FileSystem.mk fun _ => none)
        (ResultRow.mk "<td>multi language judgment</td>" none) 0
      = .ok ⟨false, false, FileSystem.mk fun _ => none⟩
    ∧ process_result_row "27~1" "Telangana High Court" (fun _ _ => true)
        (FileSystem.mk fun _ => none)
        (ResultRow.mk "<button onclick=viewDocument(3)>T</button>"
          (some "viewDocument(3)")) 1
      = .error .attributeError :=
  ⟨rfl, rfl⟩

/-!
## Session Manager (`refresh_token`, `request_api`)
-/

/-- The fields of a portal response that `request_api` inspects: the rotating
`app_token`, the optional fresh `JUDGEMENTSSEARCH_SESSID` cookie, the
`session_expire == "Y"` flag, the optional `errormsg`, and whether the
response carries a `filename` embedding a `securimage_show` CAPTCHA page.
A body that is not JSON is a response with none of these. -/
structure ApiResponse where
  app_token : Option String
  session_cookie : Option String
  session_expire : Bool
  errormsg : Option String
  filename_securimage : Bool
deriving DecidableEq, Repr

/-- Session-identity state owned by one `Downloader`: `session_id`,
`app_token`, plus a counter of completed `refresh_token` calls (observable
effect of the refresh path). -/
structure SessionState where
  session_id : Option String
  app_token : String
  refreshes : Nat
deriving DecidableEq, Repr

/-- `update_session_id`: adopt a fresh session cookie when the response set
one. -/
def update_session_id (st : SessionState) (r : ApiResponse) : SessionState :=
  match r.session_cookie with
  | some c => { st with session_id := some c }
  | none => st

/-- `refresh_token`: solves a CAPTCHA and posts it to the token-check
endpoint, adopting the returned `app_token` and session cookie.  The
endpoint's answer at the `k`-th refresh is supplied by the oracle
`rt : Nat → String × Option String` (token, optional cookie); the CAPTCHA
solve is assumed to succeed (its failure mode is the subject of C6). -/
def refresh_token (rt : Nat → String × Option String) (st : SessionState) :
    SessionState :=
  let ans := rt st.refreshes
  { st with
    app_token := ans.1
    session_id := match ans.2 with | some c => some c | none => st.session_id
    refreshes := st.refreshes + 1 }

/-- Terminal outcome of one `request_api` call. -/
inductive ApiOutcome where
  /-- The response is returned to the caller unchanged. -/
  | response (r : ApiResponse) (st : SessionState) (rest : List ApiResponse)
  /-- The response embeds a `securimage_show` CAPTCHA page: `request_api`
  delegates to `solve_pdf_download_captcha` (the CAPTCHA-gated document
  retrieval path) instead of passing the response through. -/
  | pdfCaptcha (r : ApiResponse) (st : SessionState) (rest : List ApiResponse)
  /-- The response script is exhausted (the model's stand-in for a request
  that never returns). -/
  | exhausted (st : SessionState)
deriving DecidableEq, Repr

/-- Adoption of the `app_token` carried in a response body
(`if "app_token" in response_dict: self.app_token = ...`). -/
def adopt_app_token (st : SessionState) (r : ApiResponse) : SessionState :=
  match r.app_token with
  | some t => { st with app_token := t }
  | none => st

/-- `Downloader.request_api`.  The server is a script: the `k`-th HTTP
request issued (initial call plus recursive retries) consumes the `k`-th
entry.  Faithful to the source order: adopt any `app_token` in the body,
adopt any fresh session cookie, return immediately for the
`captcha_token_url` (`is_captcha_token_url`), route `securimage` bodies to
the PDF-CAPTCHA path, and on `session_expire == "Y"` or a present `errormsg`
run `refresh_token` and recurse — the retried request carries the refreshed
token (`payload["app_token"] = self.app_token` is part of `st`). -/
def request_api (rt : Nat → String × Option String)
    (is_captcha_token_url : Bool) (st : SessionState) :
    List ApiResponse → ApiOutcome
  | [] => .exhausted st
  | r :: rest =>
    let st1 := adopt_app_token st r
    let st2 := update_session_id st1 r
    if is_captcha_token_url then .response r st2 rest
    else if r.filename_securimage then .pdfCaptcha r st2 rest
    else if r.session_expire then
      request_api rt is_captcha_token_url (refresh_token rt st2) rest
    else if r.errormsg.isSome then
      request_api rt is_captcha_token_url (refresh_token rt st2) rest
    else .response r st2 rest

/-- A response that triggers the refresh-and-retry path (and is not routed
to the PDF-CAPTCHA path first). -/
def signals_retry (r : ApiResponse) : Bool :=
  !r.filename_securimage && (r.session_expire || r.errormsg.isSome)

/-- A response that `request_api` passes through to its caller unchanged. -/
def passes_through (r : ApiResponse) : Bool :=
  !r.filename_securimage && !r.session_expire && !r.errormsg.isSome

theorem refreshes_update_session_id (st : SessionState) (r : ApiResponse) :
    (update_session_id st r).refreshes = st.refreshes := by
  cases h : r.session_cookie <;> simp [update_session_id, h]

theorem refreshes_adopt_app_token (st : SessionState) (r : ApiResponse) :
    (adopt_app_token st r).refreshes = st.refreshes := by
  cases h : r.app_token <;> simp [adopt_app_token, h]

theorem refreshes_refresh_token (rt : Nat → String × Option String)
    (st : SessionState) :
    (refresh_token rt st).refreshes = st.refreshes + 1 := rfl

/-- Amended C4: a response signalling session expiry or carrying an
application error triggers `refresh_token` followed by a retry of the same
request, and this repeats (recursively, with no retry ceiling) until a
response free of those signals arrives; a signal-free non-CAPTCHA response
passes through to the caller unchanged.  In particular the number of
refresh-and-retry cycles for one dispatched request equals the number of
consecutive signalling responses the server produces, which is not bounded
by one. -/
theorem C4_refresh_retry_until_clean (rt : Nat → String × Option String)
    (st : SessionState) (sigs : List ApiResponse) (good : ApiResponse)
    (rest : List ApiResponse)
    (h1 : ∀ r ∈ sigs, signals_retry r = true)
    (h2 : passes_through good = true) :
    ∃ st2, request_api rt false st (sigs ++ good :: rest)
        = .response good st2 rest
      ∧ st2.refreshes = st.refreshes + sigs.length := by
  induction sigs generalizing st with
  | nil =>
    simp only [passes_through, Bool.and_eq_true, Bool.not_eq_true'] at h2
    obtain ⟨⟨hsec, hexp⟩, herr⟩ := h2
    refine ⟨update_session_id (adopt_app_token st good) good, ?_, ?_⟩
    · simp [request_api, hsec, hexp, herr]
    · simp [refreshes_update_session_id, refreshes_adopt_app_token]
  | cons r sigs ih =>
    have hr := h1 r (List.mem_cons_self r sigs)
    simp only [signals_retry, Bool.and_eq_true, Bool.not_eq_true'] at hr
    obtain ⟨hsec, hsig⟩ := hr
    have htail : ∀ x ∈ sigs, signals_retry x = true :=
      fun x hx => h1 x (List.mem_cons_of_mem r hx)
    have hstep : request_api rt false st ((r :: sigs) ++ good :: rest)
        = request_api rt false
            (refresh_token rt (update_session_id (adopt_app_token st r) r))
            (sigs ++ good :: rest) := by
      cases hexp : r.session_expire with
      | true => simp [request_api, hsec, hexp]
      | false =>
        have herr : r.errormsg.isSome = true := by
          rw [hexp] at hsig
          simpa using hsig
        simp [request_api, hsec, hexp, herr]
    obtain ⟨st2, heq, hcount⟩ :=
      ih (refresh_token rt (update_session_id (adopt_app_token st r) r)) htail
    refine ⟨st2, hstep.trans heq, ?_⟩
    rw [hcount, refreshes_refresh_token, refreshes_update_session_id,
      refreshes_adopt_app_token]
    simp [List.length_cons]
    omega

/-- Witness for the amended C4: one `errormsg` response then a clean one. -/
theorem C4_refresh_retry_until_clean_witness :
    ((∀ r ∈ [ApiResponse.mk none none false (some "ERROR") false],
        signals_retry r = true)
      ∧ passes_through (ApiResponse.mk (some "t9") (some "c9") false none
          false) = true)
    ∧ ∃ st2, request_api (fun _ => ("fresh", none)) false
          (SessionState.mk none "a0" 0)
          ([ApiResponse.mk none none false (some "ERROR") false]
            ++ ApiResponse.mk (some "t9") (some "c9") false none false :: [])
        = .response (ApiResponse.mk (some "t9") (some "c9") false none false)
            st2 []
      ∧ st2.refreshes = (SessionState.mk none "a0" 0).refreshes
          + [ApiResponse.mk none none false (some "ERROR") false].length :=
  ⟨⟨by decide, by decide⟩,
    C4_refresh_retry_until_clean (fun _ => ("fresh", none))
      (SessionState.mk none "a0" 0)
      [ApiResponse.mk none none false (some "ERROR") false]
      (ApiResponse.mk (some "t9") (some "c9") false none false) []
      (by decide) (by decide)⟩

/-- Counterexample to C4 as stated: two consecutive session-expiry responses
make `request_api` perform two refresh-and-retry cycles for a single
dispatched request — the automatic retry is not "exactly one". -/
theorem C4_single_retry_cex :
    request_api (fun _ => ("fresh", none)) false (SessionState.mk none "a0" 0)
        [ApiResponse.mk (some "t1") none true none false,
          ApiResponse.mk (some "t1") none true none false,
          ApiResponse.mk (some "t2") (some "c2") false none false]
      = .response (ApiResponse.mk (some "t2") (some "c2") false none false)
          (SessionState.mk (some "c2") "t2" 2) []
    ∧ (2 : Nat) ≠ 1 := by
  refine ⟨rfl, by omega⟩

/-!
## Progress tracking (`save_court_tracking_date`) and the page loops
(`Downloader.process_court`, `Downloader.download`)
-/

/-- Per-court crawl progress (`tracking_data[court_code]`): `last_date` and
`failed_dates`. -/
structure CourtTracking where
  last_date : Nat
  failed_dates : List Nat
deriving DecidableEq, Repr

/-- `save_court_tracking_date`: under the global lock, read the tracking
store, replace the single court's entry, write the store back.  The lock
serialises whole read-modify-write cycles, so the model composes the update
as a pure store transformation. -/
def save_court_tracking_date (tracking_data : String → Option CourtTracking)
    (court_code : String) (court_tracking : CourtTracking) :
    String → Option CourtTracking :=
  fun c => if c = court_code then some court_tracking else tracking_data c

/-- The `failed_dates` append of `process_court`:
`if from_date not in failed_dates: failed_dates.append(from_date)`. -/
def add_failed_date (tr : CourtTracking) (d : Nat) : CourtTracking :=
  if d ∈ tr.failed_dates then tr
  else { tr with failed_dates := tr.failed_dates ++ [d] }

/-- Observable outcome of one `process_result_row` call inside a page loop:
returned `True` (a fresh download), returned `False`, or raised (the per-row
`except` catches it).  The bridge to the Result Processor model is
`process_result_row` itself: a dedup hit or a button-less row returns
`False` (`stale`), a non-matching onclick raises (`raised`). -/
inductive RowResult where
  | fresh
  | stale
  | raised
deriving DecidableEq, Repr

/-- Outcome of one search request as seen by the page loop: a JSON body
whose `reportrow.aaData` holds the given rows (an absent `reportrow` is the
empty list, cf. `_results_exist_in_search_response`), or an exception
escaping the page-request / row-processing cycle (network failure,
non-JSON body, CAPTCHA-solver failure inside `request_api`, …). -/
inductive PageResult where
  | page (rows : List RowResult)
  | raise
deriving DecidableEq, Repr

/-- The pagination-relevant search payload fields. -/
structure SearchPayload where
  sEcho : Nat
  iDisplayStart : Nat
  iDisplayLength : Nat
  from_date : Nat
  to_date : Nat
deriving DecidableEq, Repr

/-- `_prepare_next_iteration`: advance the echo counter and the cursor by
one page. -/
def prepare_next_iteration (p : SearchPayload) : SearchPayload :=
  { p with sEcho := p.sEcho + 1, iDisplayStart := p.iDisplayStart + page_size }

/-- The row `for`-loop of `process_court`: count fresh downloads, append
`from_date` to `failed_dates` for every row processed without a fresh
download, `break` as soon as the counter reaches `NO_CAPTCHA_BATCH_SIZE`
(the check is skipped for a row whose processing raised, since the
exception jumps to the `except` arm). -/
def process_rows_court (from_date : Nat) :
    CourtTracking → Nat → List RowResult → CourtTracking × Nat
  | tr, pdfs, [] => (tr, pdfs)
  | tr, pdfs, r :: rest =>
    match r with
    | .fresh =>
      let pdfs2 := pdfs + 1
      if pdfs2 ≥ NO_CAPTCHA_BATCH_SIZE then (tr, pdfs2)
      else process_rows_court from_date tr pdfs2 rest
    | .stale =>
      let tr2 := add_failed_date tr from_date
      if pdfs ≥ NO_CAPTCHA_BATCH_SIZE then (tr2, pdfs)
      else process_rows_court from_date tr2 pdfs rest
    | .raised => process_rows_court from_date tr pdfs rest

/-- State of one `process_court` activation: the mutable search payload, the
in-memory `self.court_tracking`, the fresh-download counter, and the
successive arguments this court passed to `save_court_tracking_date`
(`saved`, the checkpoint log). -/
structure ProcessCourtState where
  payload : SearchPayload
  court_tracking : CourtTracking
  pdfs_downloaded : Nat
  saved : List CourtTracking
deriving DecidableEq, Repr

/-- The `while results_available` loop of `process_court`, consuming one
`PageResult` per search request.  Zero result rows: set
`last_date := to_date`, checkpoint, move to the next range or stop.  Rows:
run the row loop; on reaching the batch threshold start a fresh session and
re-issue the same payload, otherwise advance the cursor.  An exception:
append `from_date` to `failed_dates`, checkpoint, and loop again with the
payload unchanged. -/
def process_court_run (today : Nat) :
    ProcessCourtState → List PageResult → ProcessCourtState
  | st, [] => st
  | st, p :: ps =>
    match p with
    | .raise =>
      let tr := add_failed_date st.court_tracking st.payload.from_date
      process_court_run today
        { st with court_tracking := tr, saved := st.saved ++ [tr] } ps
    | .page rows =>
      if rows.isEmpty then
        let tr := { st.court_tracking with last_date := st.payload.to_date }
        let st2 := { st with court_tracking := tr, saved := st.saved ++ [tr] }
        match get_new_date_range tr.last_date 1 today with
        | none => st2
        | some (f, t) =>
          process_court_run today
            { st2 with payload := { st2.payload with
                from_date := f
                to_date := t
                sEcho := 1
                iDisplayStart := 0
                iDisplayLength := page_size } } ps
      else
        let res := process_rows_court st.payload.from_date st.court_tracking
          st.pdfs_downloaded rows
        if res.2 ≥ NO_CAPTCHA_BATCH_SIZE then
          process_court_run today
            { st with court_tracking := res.1, pdfs_downloaded := 0 } ps
        else
          process_court_run today
            { st with
              court_tracking := res.1
              pdfs_downloaded := res.2
              payload := prepare_next_iteration st.payload } ps

/-- `Downloader.process_court`: compute the first date range from the
court's tracking (`day_step` defaults to 1), return at once when none
remains, otherwise run the page loop with the initial
`default_search_payload` (`sEcho = 1`, `iDisplayStart = 0`,
`iDisplayLength = page_size`). -/
def process_court (today : Nat) (court_tracking : CourtTracking)
    (script : List PageResult) : ProcessCourtState :=
  match get_new_date_range court_tracking.last_date 1 today with
  | none =>
    { payload := ⟨1, 0, page_size, 0, 0⟩, court_tracking := court_tracking,
      pdfs_downloaded := 0, saved := [] }
  | some (f, t) =>
    process_court_run today
      { payload := ⟨1, 0, page_size, f, t⟩, court_tracking := court_tracking,
        pdfs_downloaded := 0, saved := [] } script

/-- The row `for`-loop of `Downloader.download`: like the `process_court`
row loop but with no `failed_dates` recording — a row without a fresh
download has no `else` arm there. -/
def process_rows_dl : Nat → List RowResult → Nat
  | pdfs, [] => pdfs
  | pdfs, r :: rest =>
    match r with
    | .fresh =>
      let pdfs2 := pdfs + 1
      if pdfs2 ≥ NO_CAPTCHA_BATCH_SIZE then pdfs2
      else process_rows_dl pdfs2 rest
    | .stale =>
      if pdfs ≥ NO_CAPTCHA_BATCH_SIZE then pdfs
      else process_rows_dl pdfs rest
    | .raised => process_rows_dl pdfs rest

/-- State of one `Downloader.download` activation.  `court_tracking` and
`saved` mirror the `ProcessCourtState` fields (the `Downloader` holds
`self.court_tracking` loaded in `__init__`); `sessions` counts
`init_user_session` calls; `issued` logs the payload of every search request
in order. -/
structure DownloadState where
  payload : SearchPayload
  court_tracking : CourtTracking
  pdfs_downloaded : Nat
  sessions : Nat
  saved : List CourtTracking
  issued : List SearchPayload
deriving DecidableEq, Repr

/-- The `while results_available` loop of `Downloader.download`.  Zero
result rows: `results_available = False` — the loop simply ends.  Rows: as
in `process_court` but without `failed_dates` recording.  An exception: it
is logged and nothing else happens (the `results_available = False`
assignment in the `except` arm is commented out in the source), so the loop
re-issues the same request. -/
def download_run : DownloadState → List PageResult → DownloadState
  | st, [] => st
  | st, p :: ps =>
    let st0 := { st with issued := st.issued ++ [st.payload] }
    match p with
    | .raise => download_run st0 ps
    | .page rows =>
      if rows.isEmpty then st0
      else
        let pdfs2 := process_rows_dl st0.pdfs_downloaded rows
        if pdfs2 ≥ NO_CAPTCHA_BATCH_SIZE then
          download_run
            { st0 with pdfs_downloaded := 0, sessions := st0.sessions + 1 } ps
        else
          download_run
            { st0 with
              pdfs_downloaded := pdfs2
              payload := prepare_next_iteration st0.payload } ps

/-- `Downloader.download` on one `CourtDateTask` (the entry point
`process_task` uses): the fixed task range is written into the default
payload, one session is established, and the page loop runs. -/
def Downloader_download (task : CourtDateTask)
    (court_tracking : CourtTracking) (script : List PageResult) :
    DownloadState :=
  download_run
    { payload := ⟨1, 0, page_size, task.from_date, task.to_date⟩,
      court_tracking := court_tracking, pdfs_downloaded := 0, sessions := 1,
      saved := [], issued := [] } script

theorem download_run_tracking_const :
    ∀ (ps : List PageResult) (st : DownloadState),
      (download_run st ps).court_tracking = st.court_tracking
      ∧ (download_run st ps).saved = st.saved := by
  intro ps
  induction ps with
  | nil => intro st; exact ⟨rfl, rfl⟩
  | cons p ps ih =>
    intro st
    cases p with
    | raise => simpa [download_run] using ih _
    | page rows =>
      cases rows with
      | nil => simp [download_run]
      | cons r rs =>
        simp only [download_run, List.isEmpty_cons, Bool.false_eq_true,
          if_false]
        split <;> simpa using ih _

/-- C1 (divergence at the failing input): court tracked up to day 100, task
range `[101, 101]`, and the first search response carries zero rows.
`Downloader.download` — the path `process_task` executes — ends the run
without a single `save_court_tracking_date` call and with the in-memory
tracking unchanged, so the persisted `last_date` stays 100 instead of
becoming the range end 101; `process_court` (where the checkpoint logic
lives, uninvoked by `process_task`) would have checkpointed
`last_date = 101` on the same input. -/
theorem C1_zero_rows_not_checkpointed :
    (Downloader_download ⟨"27~1", 101, 101⟩ ⟨100, []⟩
        [PageResult.page []]).saved = []
    ∧ (Downloader_download ⟨"27~1", 101, 101⟩ ⟨100, []⟩
        [PageResult.page []]).court_tracking = ⟨100, []⟩
    ∧ (process_court 101 ⟨100, []⟩ [PageResult.page []]).saved.map
        CourtTracking.last_date = [101] := by
  refine ⟨?_, ?_, ?_⟩ <;> rfl

/-- C5 counterexample: task range `[101, 105]`, first page request raises,
second returns zero rows.  Contrary to the claim, `Downloader.download`
records nothing into `failed_dates` (it stays empty instead of containing
101), performs no checkpoint, and automatically re-issues the very same page
request (two identical issued payloads) within the same run. -/
theorem C5_error_handling_cex :
    (Downloader_download ⟨"27~1", 101, 105⟩ ⟨100, []⟩
        [PageResult.raise, PageResult.page []]).court_tracking.failed_dates
      = []
    ∧ (Downloader_download ⟨"27~1", 101, 105⟩ ⟨100, []⟩
        [PageResult.raise, PageResult.page []]).saved = []
    ∧ (Downloader_download ⟨"27~1", 101, 105⟩ ⟨100, []⟩
        [PageResult.raise, PageResult.page []]).issued
      = [⟨1, 0, page_size, 101, 105⟩, ⟨1, 0, page_size, 101, 105⟩] := by
  refine ⟨?_, ?_, ?_⟩ <;> rfl

/-- Amended C5: on an unrecoverable mid-range error, `Downloader.download`
(the path `process_task` executes) only logs: over any run it never touches
`failed_dates` or calls `save_court_tracking_date`, and after an error the
loop continues with the payload unchanged — the same page request for the
same range is automatically re-issued within the run.  The
record-and-checkpoint behaviour exists only in `process_court`, which
likewise re-issues the same request after recording. -/
theorem C5_error_logged_only_and_retried :
    (∀ (st : DownloadState) (ps : List PageResult),
      (download_run st ps).court_tracking = st.court_tracking
      ∧ (download_run st ps).saved = st.saved)
    ∧ (∀ (st : DownloadState) (ps : List PageResult),
      download_run st (PageResult.raise :: ps)
        = download_run { st with issued := st.issued ++ [st.payload] } ps)
    ∧ (∀ (today : Nat) (st : ProcessCourtState) (ps : List PageResult),
      process_court_run today st (PageResult.raise :: ps)
        = process_court_run today
            { st with
              court_tracking := add_failed_date st.court_tracking
                st.payload.from_date
              saved := st.saved ++ [add_failed_date st.court_tracking
                st.payload.from_date] } ps) :=
  ⟨fun st ps => download_run_tracking_const ps st,
    fun _ _ => rfl, fun _ _ _ => rfl⟩

theorem process_rows_dl_le (rows : List RowResult) :
    ∀ pdfs, pdfs < NO_CAPTCHA_BATCH_SIZE →
      process_rows_dl pdfs rows ≤ NO_CAPTCHA_BATCH_SIZE := by
  induction rows with
  | nil => intro pdfs h; simpa [process_rows_dl] using Nat.le_of_lt h
  | cons r rs ih =>
    intro pdfs h
    cases r with
    | fresh =>
      simp only [process_rows_dl]
      split
      · omega
      · exact ih (pdfs + 1) (by omega)
    | stale =>
      simp only [process_rows_dl]
      split
      · omega
      · exact ih pdfs h
    | raised => simpa [process_rows_dl] using ih pdfs h

/-- C7: (i) within one session the fresh-download counter never exceeds
`NO_CAPTCHA_BATCH_SIZE = 25` — the row loop breaks the moment the counter
reaches it, so the threshold fires after exactly 25 fresh downloads; (ii) on
a page with rows, reaching the threshold makes `download` re-establish the
session (`init_user_session`, `sessions + 1`), reset the counter, and
re-issue the same payload — `sEcho` and `iDisplayStart` unchanged — while a
pass that stays below the threshold advances the cursor instead (no session
refresh); (iii) advancing means `sEcho + 1` and `iDisplayStart + page_size`. -/
theorem C7_batch_threshold_same_cursor :
    (∀ (rows : List RowResult) (pdfs : Nat), pdfs < NO_CAPTCHA_BATCH_SIZE →
      process_rows_dl pdfs rows ≤ NO_CAPTCHA_BATCH_SIZE)
    ∧ (∀ (st : DownloadState) (r : RowResult) (rs : List RowResult)
        (ps : List PageResult),
      download_run st (PageResult.page (r :: rs) :: ps)
        = if process_rows_dl st.pdfs_downloaded (r :: rs)
              ≥ NO_CAPTCHA_BATCH_SIZE then
            download_run
              { st with
                pdfs_downloaded := 0
                sessions := st.sessions + 1
                issued := st.issued ++ [st.payload] } ps
          else
            download_run
              { st with
                pdfs_downloaded := process_rows_dl st.pdfs_downloaded (r :: rs)
                payload := prepare_next_iteration st.payload
                issued := st.issued ++ [st.payload] } ps)
    ∧ (∀ p : SearchPayload,
      (prepare_next_iteration p).sEcho = p.sEcho + 1
      ∧ (prepare_next_iteration p).iDisplayStart
          = p.iDisplayStart + page_size) :=
  ⟨process_rows_dl_le, fun _ _ _ _ => rfl, fun _ => ⟨rfl, rfl⟩⟩

/-- Witness for C7: at a counter of 24, a page of two fresh rows stops at
exactly 25. -/
theorem C7_batch_threshold_same_cursor_witness :
    24 < NO_CAPTCHA_BATCH_SIZE
    ∧ process_rows_dl 24 [RowResult.fresh, RowResult.fresh]
        ≤ NO_CAPTCHA_BATCH_SIZE :=
  ⟨by decide,
    C7_batch_threshold_same_cursor.1 [RowResult.fresh, RowResult.fresh] 24
      (by decide)⟩

/-- The number of `.fresh` rows in a listing-page prefix. -/
def count_fresh : List RowResult → Nat
  | [] => 0
  | .fresh :: t => count_fresh t + 1
  | _ :: t => count_fresh t

theorem add_failed_date_mem (tr : CourtTracking) (d : Nat) :
    d ∈ (add_failed_date tr d).failed_dates := by
  unfold add_failed_date
  split
  · assumption
  · simp

theorem add_failed_date_mono (tr : CourtTracking) (d x : Nat)
    (h : x ∈ tr.failed_dates) : x ∈ (add_failed_date tr d).failed_dates := by
  unfold add_failed_date
  split
  · exact h
  · simp [h]

theorem process_rows_court_failed_mono (f : Nat) (rows : List RowResult) :
    ∀ (tr : CourtTracking) (pdfs x : Nat), x ∈ tr.failed_dates →
      x ∈ (process_rows_court f tr pdfs rows).1.failed_dates := by
  induction rows with
  | nil => intro tr pdfs x h; simpa [process_rows_court] using h
  | cons r rs ih =>
    intro tr pdfs x h
    cases r with
    | fresh =>
      simp only [process_rows_court]
      split
      · exact h
      · exact ih tr (pdfs + 1) x h
    | stale =>
      simp only [process_rows_court]
      split
      · exact add_failed_date_mono tr f x h
      · exact ih (add_failed_date tr f) pdfs x (add_failed_date_mono tr f x h)
    | raised => simpa [process_rows_court] using ih tr pdfs x h

/-- C10: in the `process_court` row loop, a processed row that yields no
fresh download (a dedup skip, or a button-less unsupported row — any row on
which `process_result_row` returns `False`) appends the range's `from_date`
to `failed_dates`; so any page pass that processes at least one such row
leaves `from_date ∈ failed_dates` although no error occurred.  The
hypothesis guarantees the batch-threshold `break` cannot fire before the
skipped row is reached. -/
theorem C10_skip_marks_date_failed (from_date : Nat) (pre : List RowResult)
    (tr : CourtTracking) (pdfs : Nat) (rest : List RowResult)
    (h : pdfs + count_fresh pre < NO_CAPTCHA_BATCH_SIZE) :
    from_date ∈ (process_rows_court from_date tr pdfs
      (pre ++ RowResult.stale :: rest)).1.failed_dates := by
  induction pre generalizing tr pdfs with
  | nil =>
    simp only [List.nil_append, process_rows_court]
    have hlt : ¬ pdfs ≥ NO_CAPTCHA_BATCH_SIZE := by
      simp [count_fresh] at h
      omega
    rw [if_neg hlt]
    exact process_rows_court_failed_mono from_date rest _ pdfs from_date
      (add_failed_date_mem tr from_date)
  | cons r pre ih =>
    cases r with
    | fresh =>
      simp only [count_fresh] at h
      simp only [List.cons_append, process_rows_court]
      have : ¬ pdfs + 1 ≥ NO_CAPTCHA_BATCH_SIZE := by omega
      rw [if_neg this]
      exact ih tr (pdfs + 1) (by omega)
    | stale =>
      simp only [count_fresh] at h
      simp only [List.cons_append, process_rows_court]
      have : ¬ pdfs ≥ NO_CAPTCHA_BATCH_SIZE := by omega
      rw [if_neg this]
      exact ih (add_failed_date tr from_date) pdfs (by omega)
    | raised =>
      simp only [count_fresh] at h
      simp only [List.cons_append, process_rows_court]
      exact ih tr pdfs (by omega)

/-- Witness for C10: counter 0, one fresh row then a dedup-skip row. -/
theorem C10_skip_marks_date_failed_witness :
    0 + count_fresh [RowResult.fresh] < NO_CAPTCHA_BATCH_SIZE
    ∧ 101 ∈ (process_rows_court 101 ⟨100, []⟩ 0
        ([RowResult.fresh] ++ RowResult.stale :: [])).1.failed_dates :=
  ⟨by decide,
    C10_skip_marks_date_failed 101 [RowResult.fresh] ⟨100, []⟩ 0 []
      (by decide)⟩

theorem add_failed_date_last (tr : CourtTracking) (d : Nat) :
    (add_failed_date tr d).last_date = tr.last_date := by
  unfold add_failed_date
  split <;> rfl

theorem process_rows_court_last (f : Nat) (rows : List RowResult) :
    ∀ (tr : CourtTracking) (pdfs : Nat),
      (process_rows_court f tr pdfs rows).1.last_date = tr.last_date := by
  induction rows with
  | nil => intro tr pdfs; rfl
  | cons r rs ih =>
    intro tr pdfs
    cases r with
    | fresh =>
      simp only [process_rows_court]
      split
      · rfl
      · exact ih tr (pdfs + 1)
    | stale =>
      simp only [process_rows_court]
      split
      · exact add_failed_date_last tr f
      · exact (ih (add_failed_date tr f) pdfs).trans (add_failed_date_last tr f)
    | raised => simpa [process_rows_court] using ih tr pdfs

theorem get_new_date_range_1_le (l today f t : Nat)
    (h : get_new_date_range l 1 today = some (f, t)) : l ≤ t ∧ f = l + 1 := by
  unfold get_new_date_range at h
  simp only at h
  split at h
  · simp at h
  · simp only [Option.some.injEq, Prod.mk.injEq] at h
    obtain ⟨hf, ht⟩ := h
    refine ⟨?_, by omega⟩
    try split at ht
    all_goals omega

theorem process_court_run_saved (today : Nat) :
    ∀ (ps : List PageResult) (p : SearchPayload) (tr : CourtTracking)
      (n : Nat) (w : List CourtTracking),
      process_court_run today ⟨p, tr, n, w⟩ ps
        = { process_court_run today ⟨p, tr, n, []⟩ ps with
            saved := w ++ (process_court_run today ⟨p, tr, n, []⟩ ps).saved }
    := by
  intro ps
  induction ps with
  | nil => intro p tr n w; simp [process_court_run]
  | cons pr ps ih =>
    intro p tr n w
    cases pr with
    | raise =>
      simp only [process_court_run]
      rw [ih, ih p _ n ([] ++ _)]
      simp
    | page rows =>
      cases rows with
      | nil =>
        simp only [process_court_run, List.isEmpty_nil, if_true]
        rcases h : get_new_date_range p.to_date 1 today with _ | ⟨f, t⟩ <;>
          simp only [h]
        · simp
        · rw [ih, ih _ _ n ([] ++ _)]
          simp
      | cons r rs =>
        simp only [process_court_run, List.isEmpty_cons, Bool.false_eq_true,
          if_false]
        split
        · rw [ih, ih p _ 0 []]
        · rw [ih, ih _ _ _ []]

theorem process_court_run_chain (today : Nat) :
    ∀ (ps : List PageResult) (p : SearchPayload) (tr : CourtTracking)
      (n : Nat), tr.last_date ≤ p.to_date →
      List.Chain' (· ≤ ·) (tr.last_date ::
        (process_court_run today ⟨p, tr, n, []⟩ ps).saved.map
          CourtTracking.last_date) := by
  intro ps
  induction ps with
  | nil => intro p tr n _; simp [process_court_run]
  | cons pr ps ih =>
    intro p tr n hinv
    cases pr with
    | raise =>
      simp only [process_court_run]
      rw [process_court_run_saved]
      simp only [List.map_append, List.map_cons, List.map_nil,
        List.singleton_append, List.cons_append, List.nil_append]
      refine List.chain'_cons.mpr ⟨?_, ?_⟩
      · rw [add_failed_date_last]
      · have h2 := ih p (add_failed_date tr p.from_date) n
          (by rw [add_failed_date_last]; exact hinv)
        rw [add_failed_date_last] at h2 ⊢
        exact h2
    | page rows =>
      cases rows with
      | nil =>
        simp only [process_court_run, List.isEmpty_nil, if_true]
        rcases h : get_new_date_range p.to_date 1 today with _ | ⟨f, t⟩ <;>
          simp only [h]
        · simpa using hinv
        · rw [process_court_run_saved]
          simp only [List.map_append, List.map_cons, List.map_nil,
            List.singleton_append, List.cons_append, List.nil_append]
          refine List.chain'_cons.mpr ⟨hinv, ?_⟩
          exact ih ⟨1, 0, page_size, f, t⟩ ⟨p.to_date, tr.failed_dates⟩ n
            (get_new_date_range_1_le p.to_date today f t h).1
      | cons r rs =>
        simp only [process_court_run, List.isEmpty_cons, Bool.false_eq_true,
          if_false]
        split
        · have := ih p
            (process_rows_court p.from_date tr n (r :: rs)).1 0
            (by rw [process_rows_court_last]; exact hinv)
          rwa [process_rows_court_last] at this
        · have := ih (prepare_next_iteration p)
            (process_rows_court p.from_date tr n (r :: rs)).1
            (process_rows_court p.from_date tr n (r :: rs)).2
            (by rw [process_rows_court_last]; exact hinv)
          rwa [process_rows_court_last] at this

/-- C3: over one court's crawl (`process_court`, which computes every new
range from the tracked `last_date` via `get_new_date_range`), the sequence
of `last_date` values passed to `save_court_tracking_date` — starting from
the previously persisted value — is monotonically non-decreasing: no
checkpoint writes a `last_date` strictly earlier than the one before it.
`save_court_tracking_date` itself stores its argument verbatim (second
conjunct): the monotonicity is enforced by the callers, which only ever
move `last_date` forward to the just-exhausted range end. -/
theorem C3_progress_monotone (today : Nat) (court_tracking : CourtTracking)
    (script : List PageResult) :
    List.Chain' (· ≤ ·) (court_tracking.last_date ::
      (process_court today court_tracking script).saved.map
        CourtTracking.last_date)
    ∧ (∀ (store : String → Option CourtTracking) (court : String)
        (tr : CourtTracking),
      save_court_tracking_date store court tr court = some tr) := by
  constructor
  · unfold process_court
    rcases h : get_new_date_range court_tracking.last_date 1 today with _ |
        ⟨f, t⟩ <;> simp only [h]
    · simp
    · exact process_court_run_chain today script _ court_tracking 0
        (get_new_date_range_1_le _ _ _ _ h).1
  · intro store court tr
    simp [save_court_tracking_date]
